import Mathlib

/-!
Verification of the AetherDraw gesture-classification and stroke-rendering
pipeline (`src/lib/gesture-recognition.ts` and
`src/components/ar/ARCanvas.tsx`).

Coordinates are modelled as exact rationals.  The source compares Euclidean
distances computed with `Math.sqrt`; since `sqrt` is strictly monotone on
nonnegative reals, `sqrt a > sqrt b ↔ a > b`, so every distance comparison is
modelled by comparing squared distances.  The Boolean outcome of each
comparison is unchanged by this encoding.
-/

/-- Gesture labels, from the union type `GestureType` in
`gesture-recognition.ts`. -/
inductive GestureType where
  | IDLE
  | DRAW
  | HOVER
  | CHANGE_COLOR
  | CLEAR
  | ERASE
deriving DecidableEq, Repr

/-- One hand keypoint, from `interface HandLandmark` (the optional
`visibility` field is never read by the pipeline). -/
structure HandLandmark where
  x : ℚ
  y : ℚ
  z : ℚ
  visibility : Option ℚ := none
deriving DecidableEq, Repr

instance : Inhabited HandLandmark := ⟨⟨0, 0, 0, none⟩⟩

/-- Squared Euclidean distance between two landmarks.  The source's
`calculateDistance` returns `Math.sqrt` of this value; all uses of it in the
source are `>` comparisons, which the squared form decides identically. -/
def calculateDistanceSq (p1 p2 : HandLandmark) : ℚ :=
  (p1.x - p2.x) * (p1.x - p2.x) +
  (p1.y - p2.y) * (p1.y - p2.y) +
  (p1.z - p2.z) * (p1.z - p2.z)

/-- From `isFingerExtended` in `gesture-recognition.ts`: a finger is extended
iff the tip is farther from the wrist than both the PIP joint and the MCP
joint (distance comparisons encoded on squares, see module comment). -/
def isFingerExtended (tip pip mcp wrist : HandLandmark) : Bool :=
  let tipDist := calculateDistanceSq tip wrist
  let pipDist := calculateDistanceSq pip wrist
  let mcpDist := calculateDistanceSq mcp wrist
  tipDist > pipDist && tipDist > mcpDist

/-- In-bounds landmark access; `detectGesture` indexes the array only after
checking `landmarks.length >= 21`, so the default is never reached on the
guarded paths. -/
def nthLm (lm : List HandLandmark) (i : ℕ) : HandLandmark :=
  lm.getD i default

/-- From `detectGesture` in `gesture-recognition.ts`: the ordered decision
table over the four finger-extension booleans, with the length guard
`landmarks.length < 21 → IDLE`. -/
def detectGesture (landmarks : List HandLandmark) : GestureType :=
  if landmarks.length < 21 then GestureType.IDLE
  else
    let wrist := nthLm landmarks 0
    let indexTip := nthLm landmarks 8
    let indexPIP := nthLm landmarks 6
    let indexMCP := nthLm landmarks 5
    let middleTip := nthLm landmarks 12
    let middlePIP := nthLm landmarks 10
    let middleMCP := nthLm landmarks 9
    let ringTip := nthLm landmarks 16
    let ringPIP := nthLm landmarks 14
    let ringMCP := nthLm landmarks 13
    let pinkyTip := nthLm landmarks 20
    let pinkyPIP := nthLm landmarks 18
    let pinkyMCP := nthLm landmarks 17
    let isIndexExtended := isFingerExtended indexTip indexPIP indexMCP wrist
    let isMiddleExtended := isFingerExtended middleTip middlePIP middleMCP wrist
    let isRingExtended := isFingerExtended ringTip ringPIP ringMCP wrist
    let isPinkyExtended := isFingerExtended pinkyTip pinkyPIP pinkyMCP wrist
    if isIndexExtended && !isMiddleExtended && !isRingExtended && isPinkyExtended then
      GestureType.ERASE
    else if isIndexExtended && isMiddleExtended && !isRingExtended && !isPinkyExtended then
      GestureType.CHANGE_COLOR
    else if isIndexExtended && isMiddleExtended && isRingExtended && isPinkyExtended then
      GestureType.HOVER
    else if isIndexExtended && !isMiddleExtended && !isRingExtended && !isPinkyExtended then
      GestureType.DRAW
    else if !isIndexExtended && !isMiddleExtended && !isRingExtended && !isPinkyExtended then
      GestureType.CLEAR
    else
      GestureType.IDLE

/-- The classifier as exposed to a caller that may pass `null`/`undefined`:
the source guard `if (!landmarks || landmarks.length < 21) return 'IDLE'`
folds the null check into an `Option`. -/
def classify (frame : Option (List HandLandmark)) : GestureType :=
  match frame with
  | none => GestureType.IDLE
  | some lm => detectGesture lm

/-- Extension booleans of the four relevant fingers for a frame, in the order
index, middle, ring, pinky (exactly the four `isFingerExtended` calls of
`detectGesture`). -/
def fingerBits (lm : List HandLandmark) : Bool × Bool × Bool × Bool :=
  (isFingerExtended (nthLm lm 8) (nthLm lm 6) (nthLm lm 5) (nthLm lm 0),
   isFingerExtended (nthLm lm 12) (nthLm lm 10) (nthLm lm 9) (nthLm lm 0),
   isFingerExtended (nthLm lm 16) (nthLm lm 14) (nthLm lm 13) (nthLm lm 0),
   isFingerExtended (nthLm lm 20) (nthLm lm 18) (nthLm lm 17) (nthLm lm 0))

/-- Modelled from the spec: the ordered decision table of spec section 4.1
over per-finger extension, first match wins — ERASE, then CHANGE_COLOR, then
HOVER, then DRAW, then CLEAR, else IDLE. -/
def specClassifyTable (i m r p : Bool) : GestureType :=
  if i && p && !m && !r then GestureType.ERASE
  else if i && m && !r && !p then GestureType.CHANGE_COLOR
  else if i && m && r && p then GestureType.HOVER
  else if i && !m && !r && !p then GestureType.DRAW
  else if !i && !m && !r && !p then GestureType.CLEAR
  else GestureType.IDLE

/-- Modelled from the spec: `specClassify` applies the spec's ordered table to
the per-finger extension booleans of a valid frame. -/
def specClassify (lm : List HandLandmark) : GestureType :=
  let bits := fingerBits lm
  specClassifyTable bits.1 bits.2.1 bits.2.2.1 bits.2.2.2

/-- The ERASE hand shape: index and pinky extended, middle and ring not
(thumb landmarks play no role in this predicate). -/
def eraseShape (lm : List HandLandmark) : Bool :=
  let bits := fingerBits lm
  bits.1 && !bits.2.1 && !bits.2.2.1 && bits.2.2.2

/-- Two frames agree on every landmark the classifier reads (wrist plus the
tip, PIP and MCP of the four non-thumb fingers); the thumb landmarks
(indices 1–4) and the unused joints are unconstrained. -/
def agreesOnNonThumb (lm lm' : List HandLandmark) : Prop :=
  ∀ i ∈ [0, 5, 6, 8, 9, 10, 12, 13, 14, 16, 17, 18, 20], nthLm lm i = nthLm lm' i

/-- Disjoint-pattern (unordered) form of the decision table: each of the five
gesture shapes is a complete conjunction over the four booleans, so the cases
are matched by mutually exclusive patterns in no particular order. -/
def classifyUnorderedTable (i m r p : Bool) : GestureType :=
  match i, m, r, p with
  | true, false, false, true => GestureType.ERASE
  | true, true, false, false => GestureType.CHANGE_COLOR
  | true, true, true, true => GestureType.HOVER
  | true, false, false, false => GestureType.DRAW
  | false, false, false, false => GestureType.CLEAR
  | true, false, true, false => GestureType.IDLE
  | true, false, true, true => GestureType.IDLE
  | true, true, false, true => GestureType.IDLE
  | true, true, true, false => GestureType.IDLE
  | false, false, false, true => GestureType.IDLE
  | false, false, true, false => GestureType.IDLE
  | false, false, true, true => GestureType.IDLE
  | false, true, false, false => GestureType.IDLE
  | false, true, false, true => GestureType.IDLE
  | false, true, true, false => GestureType.IDLE
  | false, true, true, true => GestureType.IDLE

section ClassifierFacts

/-- Unfolded form of `detectGesture` on valid frames, as the spec table over
`fingerBits`. -/
lemma detectGesture_eq_table (lm : List HandLandmark) (h : 21 ≤ lm.length) :
    detectGesture lm = specClassify lm := by
  have h' : ¬ lm.length < 21 := not_lt.mpr h
  simp only [detectGesture, specClassify, fingerBits, if_neg h']
  generalize isFingerExtended (nthLm lm 8) (nthLm lm 6) (nthLm lm 5) (nthLm lm 0) = i
  generalize isFingerExtended (nthLm lm 12) (nthLm lm 10) (nthLm lm 9) (nthLm lm 0) = m
  generalize isFingerExtended (nthLm lm 16) (nthLm lm 14) (nthLm lm 13) (nthLm lm 0) = r
  generalize isFingerExtended (nthLm lm 20) (nthLm lm 18) (nthLm lm 17) (nthLm lm 0) = p
  revert i m r p
  decide

end ClassifierFacts

/-- C1: for every frame of at least 21 landmarks, `detectGesture` equals the
spec's ordered decision table over per-finger extension; any frame in the
ERASE shape classifies as ERASE; and the result depends only on the wrist and
the non-thumb finger landmarks, so the thumb is irrelevant. -/
theorem detectGesture_matches_spec (lm : List HandLandmark) (h : 21 ≤ lm.length) :
    detectGesture lm = specClassify lm ∧
    (eraseShape lm = true → detectGesture lm = GestureType.ERASE) ∧
    (∀ lm', 21 ≤ lm'.length → agreesOnNonThumb lm lm' →
      detectGesture lm' = detectGesture lm) := by
  have h' : ¬ lm.length < 21 := not_lt.mpr h
  refine ⟨detectGesture_eq_table lm h, ?_, ?_⟩
  · intro he
    rw [detectGesture_eq_table lm h]
    simp only [eraseShape, Bool.and_eq_true, Bool.not_eq_true'] at he
    simp [specClassify, specClassifyTable, he.1.1.1, he.1.1.2, he.1.2, he.2]
  · intro lm' hlen hag
    have h'' : ¬ lm'.length < 21 := not_lt.mpr hlen
    have e0 := hag 0 (by simp)
    have e5 := hag 5 (by simp)
    have e6 := hag 6 (by simp)
    have e8 := hag 8 (by simp)
    have e9 := hag 9 (by simp)
    have e10 := hag 10 (by simp)
    have e12 := hag 12 (by simp)
    have e13 := hag 13 (by simp)
    have e14 := hag 14 (by simp)
    have e16 := hag 16 (by simp)
    have e17 := hag 17 (by simp)
    have e18 := hag 18 (by simp)
    have e20 := hag 20 (by simp)
    simp only [detectGesture, if_neg h', if_neg h'',
      e0, e5, e6, e8, e9, e10, e12, e13, e14, e16, e17, e18, e20]

/-- A concrete extended finger: tip strictly farther from the wrist at the
origin than both joints. -/
def extFinger : HandLandmark × HandLandmark × HandLandmark :=
  (⟨3, 0, 0, none⟩, ⟨2, 0, 0, none⟩, ⟨1, 0, 0, none⟩)

/-- A concrete curled finger: tip closer to the wrist than the PIP joint. -/
def curlFinger : HandLandmark × HandLandmark × HandLandmark :=
  (⟨1, 0, 0, none⟩, ⟨2, 0, 0, none⟩, ⟨1, 0, 0, none⟩)

/-- Test frame builder: a 21-landmark frame whose wrist is the origin and
whose four finger extension bits are exactly the four arguments; unused
landmarks (thumb and remaining joints) are the origin. -/
def mkFrame (i m r p : Bool) : List HandLandmark :=
  let pick := fun (b : Bool) => if b then extFinger else curlFinger
  let fi := pick i
  let fm := pick m
  let fr := pick r
  let fp := pick p
  [⟨0, 0, 0, none⟩,
   default, default, default, default,
   fi.2.2, fi.2.1, default, fi.1,
   fm.2.2, fm.2.1, default, fm.1,
   fr.2.2, fr.2.1, default, fr.1,
   fp.2.2, fp.2.1, default, fp.1]

/-- Witness for C1 at a concrete 21-landmark ERASE-shaped frame. -/
theorem detectGesture_matches_spec_witness :
    detectGesture (mkFrame true false false true) =
      specClassify (mkFrame true false false true) ∧
    (eraseShape (mkFrame true false false true) = true →
      detectGesture (mkFrame true false false true) = GestureType.ERASE) ∧
    (∀ lm', 21 ≤ lm'.length → agreesOnNonThumb (mkFrame true false false true) lm' →
      detectGesture lm' = detectGesture (mkFrame true false false true)) :=
  detectGesture_matches_spec (mkFrame true false false true) (by decide)

/-- C8: a null/undefined input or a frame of fewer than 21 landmarks always
classifies as IDLE. -/
theorem classify_short_or_null_is_idle :
    classify none = GestureType.IDLE ∧
    ∀ lm : List HandLandmark, lm.length < 21 →
      classify (some lm) = GestureType.IDLE := by
  refine ⟨rfl, fun lm h => ?_⟩
  simp [classify, detectGesture, if_pos h]

/-- Witness for C8 at the empty frame and a 3-landmark frame. -/
theorem classify_short_or_null_is_idle_witness :
    classify (some [default, default, default]) = GestureType.IDLE :=
  classify_short_or_null_is_idle.2 [default, default, default] (by decide)

/-- C10: the five gesture shapes over the four finger-extension booleans are
pairwise mutually exclusive, so the ordered decision table equals the
disjoint-pattern (unordered) case match, and `detectGesture` computes that
order-independent function on every valid frame. -/
theorem detectGesture_table_order_independent :
    (∀ i m r p : Bool,
      ((i && p && !m && !r) && (i && m && !r && !p)) = false ∧
      ((i && p && !m && !r) && (i && m && r && p)) = false ∧
      ((i && p && !m && !r) && (i && !m && !r && !p)) = false ∧
      ((i && p && !m && !r) && (!i && !m && !r && !p)) = false ∧
      ((i && m && !r && !p) && (i && m && r && p)) = false ∧
      ((i && m && !r && !p) && (i && !m && !r && !p)) = false ∧
      ((i && m && !r && !p) && (!i && !m && !r && !p)) = false ∧
      ((i && m && r && p) && (i && !m && !r && !p)) = false ∧
      ((i && m && r && p) && (!i && !m && !r && !p)) = false ∧
      ((i && !m && !r && !p) && (!i && !m && !r && !p)) = false) ∧
    (∀ i m r p : Bool, specClassifyTable i m r p = classifyUnorderedTable i m r p) ∧
    (∀ lm : List HandLandmark, 21 ≤ lm.length →
      detectGesture lm =
        classifyUnorderedTable (fingerBits lm).1 (fingerBits lm).2.1
          (fingerBits lm).2.2.1 (fingerBits lm).2.2.2) := by
  refine ⟨by decide, by decide, fun lm h => ?_⟩
  rw [detectGesture_eq_table lm h]
  simp only [specClassify]
  exact (by decide : ∀ i m r p : Bool,
    specClassifyTable i m r p = classifyUnorderedTable i m r p) _ _ _ _

/-- Witness for C10 at a concrete valid frame. -/
theorem detectGesture_table_order_independent_witness :
    detectGesture (mkFrame true true false false) =
      classifyUnorderedTable (fingerBits (mkFrame true true false false)).1
        (fingerBits (mkFrame true true false false)).2.1
        (fingerBits (mkFrame true true false false)).2.2.1
        (fingerBits (mkFrame true true false false)).2.2.2 :=
  detectGesture_table_order_independent.2.2 (mkFrame true true false false) (by decide)

/-!
Stroke Engine: the per-tick logic of `predictWebcam` and the clear effect in
`ARCanvas.tsx`.  Mutable refs (`lastGestureRef`, `lastPointRef`,
`isDrawingRef`, `gestureCooldownRef`) become fields of an explicit state
record; the canvas becomes an abstract list of painted segments; the two
callbacks (`onGestureChange`, `onColorChange`) and the rendered segment
become the per-tick output record.
-/

/-- The externally owned drawing tool (ToolPalette / HomePage state). -/
inductive Tool where
  | pen
  | eraser
deriving DecidableEq, Repr

/-- Canvas pixel-blending mode.  The source never assigns
`globalCompositeOperation`, so every stroke uses the default `source-over`. -/
inductive CompositeMode where
  | sourceOver
  | destinationOut
deriving DecidableEq, Repr

/-- A 2-D pixel point, from the `{x, y}` records stored in `lastPointRef`. -/
structure Point where
  x : ℚ
  y : ℚ
deriving DecidableEq, Repr

/-- External per-tick configuration: canvas size (matched to the video's
native resolution) and the externally owned color and tool.  `activeTool`
is included because HomePage passes it down, but `predictWebcam` never
reads it. -/
structure Config where
  width : ℚ
  height : ℚ
  activeColor : String
  activeTool : Tool
deriving DecidableEq, Repr

/-- Stroke parameters of one rendered segment, from the context assignments
before `ctx.stroke()`: `strokeStyle`, `lineWidth = 8`, and the (never
changed) composite mode. -/
structure StrokeStyle where
  color : String
  lineWidth : ℚ
  composite : CompositeMode
deriving DecidableEq, Repr

/-- One rendered line segment: `moveTo(p1)`, `lineTo(p2)`, `stroke()`. -/
structure Segment where
  p1 : Point
  p2 : Point
  style : StrokeStyle
deriving DecidableEq, Repr

/-- Engine session state, from the refs of `ARCanvas`:
`lastGestureRef`, `lastPointRef`, `isDrawingRef`, `gestureCooldownRef`. -/
structure EngineState where
  lastGesture : GestureType
  lastPoint : Option Point
  isDrawing : Bool
  gestureCooldown : ℤ
deriving DecidableEq, Repr

/-- Ref initial values: `'IDLE'`, `null`, `false`, `0`. -/
def initState : EngineState :=
  { lastGesture := GestureType.IDLE, lastPoint := none,
    isDrawing := false, gestureCooldown := 0 }

/-- One tick's input: a detected hand frame, an empty detection result
(`results.landmarks` absent or empty), or a throw inside the `try` block
(`detectForVideo`/classification failure, caught at line 240). -/
inductive TickInput where
  | frame (lm : List HandLandmark)
  | noHand
  | err
deriving Repr

/-- Observable effects of one tick: the `onGestureChange` argument if it was
invoked, whether `onColorChange` was invoked, and the rendered segment if
one was stroked. -/
structure TickOutput where
  gestureEvent : Option GestureType
  colorFired : Bool
  segment : Option Segment
deriving DecidableEq, Repr

/-- A tick with no observable effect. -/
def emptyOutput : TickOutput :=
  { gestureEvent := none, colorFired := false, segment := none }

/-- Normalized-to-pixel conversion of the index fingertip, from lines
198–199: `x = (1 - tip.x) * canvas.width` (mirrored), `y = tip.y *
canvas.height`. -/
def toPixel (cfg : Config) (tip : HandLandmark) : Point :=
  ⟨(1 - tip.x) * cfg.width, tip.y * cfg.height⟩

/-- One tick of `predictWebcam` (lines 169–242), given the current external
configuration, session state, detection result and `Date.now()` value.
An `err` input models a throw caught by the `catch` block: the tick ends
with no state change and no callback.  A `noHand` input runs the `else`
branch (lines 231–239).  A `frame` input runs edge detection (179–188),
DRAW handling (194–215) and the color-change cooldown (218–223). -/
def processTick (cfg : Config) (s : EngineState) (inp : TickInput) (now : ℤ) :
    EngineState × TickOutput :=
  match inp with
  | TickInput.err => (s, emptyOutput)
  | TickInput.noHand =>
      if s.lastGesture ≠ GestureType.IDLE then
        ({ s with lastGesture := GestureType.IDLE,
                  isDrawing := false, lastPoint := none },
         { emptyOutput with gestureEvent := some GestureType.IDLE })
      else (s, emptyOutput)
  | TickInput.frame lm =>
      let gesture := detectGesture lm
      let ev : Option GestureType :=
        if gesture ≠ s.lastGesture then some gesture else none
      let s1 :=
        if gesture ≠ s.lastGesture then
          if gesture ≠ GestureType.DRAW then
            { s with lastGesture := gesture, isDrawing := false, lastPoint := none }
          else
            { s with lastGesture := gesture }
        else s
      let pt := toPixel cfg (nthLm lm 8)
      let seg : Option Segment :=
        if gesture = GestureType.DRAW then
          s1.lastPoint.map fun p =>
            ⟨p, pt, ⟨cfg.activeColor, 8, CompositeMode.sourceOver⟩⟩
        else none
      let s2 :=
        if gesture = GestureType.DRAW then
          { s1 with lastPoint := some pt, isDrawing := true }
        else s1
      let fired : Bool :=
        if gesture = GestureType.CHANGE_COLOR ∧ 1500 < now - s2.gestureCooldown
        then true else false
      let s3 :=
        if gesture = GestureType.CHANGE_COLOR ∧ 1500 < now - s2.gestureCooldown
        then { s2 with gestureCooldown := now } else s2
      (s3, { gestureEvent := ev, colorFired := fired, segment := seg })

/-- The clear effect (lines 127–135): on a `clearTrigger` change the whole
raster is wiped (`clearRect` over the full canvas, modelled as emptying the
painted-segment list) and `lastPointRef` is reset to `null`.  The other
refs are untouched. -/
def clearSurface (s : EngineState) (_surf : List Segment) :
    EngineState × List Segment :=
  ({ s with lastPoint := none }, [])

/-- Run a list of ticks, collecting the per-tick outputs. -/
def runTicks (cfg : Config) : EngineState → List (TickInput × ℤ) →
    EngineState × List TickOutput
  | s, [] => (s, [])
  | s, (inp, now) :: rest =>
      let r := processTick cfg s inp now
      let rr := runTicks cfg r.1 rest
      (rr.1, r.2 :: rr.2)

/-- The gesture a tick is processed as: a frame's classification, IDLE for a
no-hand tick, and none for a tick that threw. -/
def inputGesture : TickInput → Option GestureType
  | TickInput.frame lm => some (detectGesture lm)
  | TickInput.noHand => some GestureType.IDLE
  | TickInput.err => none

/-- Test configuration: a 1000×1000 surface, teal pen. -/
def cfg0 : Config :=
  { width := 1000, height := 1000, activeColor := "#4ECDC4", activeTool := Tool.pen }

/-- Test frame builder for DRAW: a 21-landmark frame classified DRAW whose
index fingertip sits at `(tx, ty)`.  The wrist is 4 below the tip, the index
PIP and MCP are 2 and 1 from the wrist, and the other three fingertips sit
on the wrist (hence curled). -/
def mkDrawFrame (tx ty : ℚ) : List HandLandmark :=
  let wrist : HandLandmark := ⟨tx, ty - 4, 0, none⟩
  let tipI : HandLandmark := ⟨tx, ty, 0, none⟩
  let jPIP : HandLandmark := ⟨tx, ty - 2, 0, none⟩
  let jMCP : HandLandmark := ⟨tx, ty - 3, 0, none⟩
  [wrist, wrist, wrist, wrist, wrist,
   jMCP, jPIP, wrist, tipI,
   jMCP, jPIP, wrist, wrist,
   jMCP, jPIP, wrist, wrist,
   jMCP, jPIP, wrist, wrist]

/-- Test frame for CHANGE_COLOR: index and middle extended, ring and pinky
curled (tips on the wrist). -/
def mkCcFrame : List HandLandmark :=
  let wrist : HandLandmark := ⟨0, -4, 0, none⟩
  let tip : HandLandmark := ⟨0, 0, 0, none⟩
  let jPIP : HandLandmark := ⟨0, -2, 0, none⟩
  let jMCP : HandLandmark := ⟨0, -3, 0, none⟩
  [wrist, wrist, wrist, wrist, wrist,
   jMCP, jPIP, wrist, tip,
   jMCP, jPIP, wrist, tip,
   jMCP, jPIP, wrist, wrist,
   jMCP, jPIP, wrist, wrist]

/-- Extension bits of the DRAW test frame: only the index is extended. -/
lemma fingerBits_mkDrawFrame (tx ty : ℚ) :
    fingerBits (mkDrawFrame tx ty) = (true, false, false, false) := by
  have e0 : nthLm (mkDrawFrame tx ty) 0 = ⟨tx, ty - 4, 0, none⟩ := rfl
  have e5 : nthLm (mkDrawFrame tx ty) 5 = ⟨tx, ty - 3, 0, none⟩ := rfl
  have e6 : nthLm (mkDrawFrame tx ty) 6 = ⟨tx, ty - 2, 0, none⟩ := rfl
  have e8 : nthLm (mkDrawFrame tx ty) 8 = ⟨tx, ty, 0, none⟩ := rfl
  have e9 : nthLm (mkDrawFrame tx ty) 9 = ⟨tx, ty - 3, 0, none⟩ := rfl
  have e10 : nthLm (mkDrawFrame tx ty) 10 = ⟨tx, ty - 2, 0, none⟩ := rfl
  have e12 : nthLm (mkDrawFrame tx ty) 12 = ⟨tx, ty - 4, 0, none⟩ := rfl
  have e13 : nthLm (mkDrawFrame tx ty) 13 = ⟨tx, ty - 3, 0, none⟩ := rfl
  have e14 : nthLm (mkDrawFrame tx ty) 14 = ⟨tx, ty - 2, 0, none⟩ := rfl
  have e16 : nthLm (mkDrawFrame tx ty) 16 = ⟨tx, ty - 4, 0, none⟩ := rfl
  have e17 : nthLm (mkDrawFrame tx ty) 17 = ⟨tx, ty - 3, 0, none⟩ := rfl
  have e18 : nthLm (mkDrawFrame tx ty) 18 = ⟨tx, ty - 2, 0, none⟩ := rfl
  have e20 : nthLm (mkDrawFrame tx ty) 20 = ⟨tx, ty - 4, 0, none⟩ := rfl
  simp only [fingerBits, e0, e5, e6, e8, e9, e10, e12, e13, e14, e16, e17, e18, e20,
    isFingerExtended, calculateDistanceSq]
  ring_nf
  norm_num

/-- The DRAW test frame classifies as DRAW for every fingertip position. -/
lemma detectGesture_mkDrawFrame (tx ty : ℚ) :
    detectGesture (mkDrawFrame tx ty) = GestureType.DRAW := by
  rw [detectGesture_eq_table (mkDrawFrame tx ty) (Nat.le_refl 21)]
  simp [specClassify, fingerBits_mkDrawFrame, specClassifyTable]

/-- Extension bits of the CHANGE_COLOR test frame. -/
lemma fingerBits_mkCcFrame :
    fingerBits mkCcFrame = (true, true, false, false) := by
  have e0 : nthLm mkCcFrame 0 = ⟨0, -4, 0, none⟩ := rfl
  have e5 : nthLm mkCcFrame 5 = ⟨0, -3, 0, none⟩ := rfl
  have e6 : nthLm mkCcFrame 6 = ⟨0, -2, 0, none⟩ := rfl
  have e8 : nthLm mkCcFrame 8 = ⟨0, 0, 0, none⟩ := rfl
  have e9 : nthLm mkCcFrame 9 = ⟨0, -3, 0, none⟩ := rfl
  have e10 : nthLm mkCcFrame 10 = ⟨0, -2, 0, none⟩ := rfl
  have e12 : nthLm mkCcFrame 12 = ⟨0, 0, 0, none⟩ := rfl
  have e13 : nthLm mkCcFrame 13 = ⟨0, -3, 0, none⟩ := rfl
  have e14 : nthLm mkCcFrame 14 = ⟨0, -2, 0, none⟩ := rfl
  have e16 : nthLm mkCcFrame 16 = ⟨0, -4, 0, none⟩ := rfl
  have e17 : nthLm mkCcFrame 17 = ⟨0, -3, 0, none⟩ := rfl
  have e18 : nthLm mkCcFrame 18 = ⟨0, -2, 0, none⟩ := rfl
  have e20 : nthLm mkCcFrame 20 = ⟨0, -4, 0, none⟩ := rfl
  simp only [fingerBits, e0, e5, e6, e8, e9, e10, e12, e13, e14, e16, e17, e18, e20,
    isFingerExtended, calculateDistanceSq]
  norm_num

/-- The CHANGE_COLOR test frame classifies as CHANGE_COLOR. -/
lemma detectGesture_mkCcFrame :
    detectGesture mkCcFrame = GestureType.CHANGE_COLOR := by
  rw [detectGesture_eq_table mkCcFrame (Nat.le_refl 21)]
  simp [specClassify, fingerBits_mkCcFrame, specClassifyTable]

/-- A session state in the middle of a drawing stroke. -/
def sMidStroke : EngineState :=
  { lastGesture := GestureType.DRAW, lastPoint := some ⟨500, 500⟩,
    isDrawing := true, gestureCooldown := 0 }

/-- C6 (amended): a tick on which detection throws is caught by the `catch`
block and is a pure no-op — the session state is unchanged, no callback is
invoked, nothing is rendered — and, the step function being total, the next
tick proceeds from the same state as if the bad frame had never happened. -/
theorem err_tick_is_noop (cfg : Config) (s : EngineState) (now : ℤ) :
    processTick cfg s TickInput.err now = (s, emptyOutput) := rfl

/-- C6 (counterexample): a throwing tick is NOT treated as gesture IDLE.
From a mid-stroke state, the code's own IDLE treatment (the no-hand branch)
would move `lastGesture` to IDLE, fire `onGestureChange`, and drop the stored
point; the caught-throw tick does none of that. -/
theorem err_tick_not_treated_as_idle :
    (processTick cfg0 sMidStroke TickInput.err 0).1.lastGesture =
      GestureType.DRAW ∧
    (processTick cfg0 sMidStroke TickInput.err 0).2.gestureEvent = none ∧
    (processTick cfg0 sMidStroke TickInput.err 0).1.lastPoint = some ⟨500, 500⟩ ∧
    processTick cfg0 sMidStroke TickInput.err 0 ≠
      processTick cfg0 sMidStroke TickInput.noHand 0 := by
  refine ⟨rfl, rfl, rfl, ?_⟩
  decide

/-- C7: `clearSurface` empties the raster and resets `lastPoint`, and the
next DRAW tick renders no segment — it only records its own point. -/
theorem clear_then_draw_renders_no_segment (cfg : Config) (s : EngineState)
    (surf : List Segment) (lm : List HandLandmark) (now : ℤ)
    (h : detectGesture lm = GestureType.DRAW) :
    (clearSurface s surf).1.lastPoint = none ∧
    (clearSurface s surf).2 = [] ∧
    (processTick cfg (clearSurface s surf).1 (TickInput.frame lm) now).2.segment =
      none ∧
    (processTick cfg (clearSurface s surf).1 (TickInput.frame lm) now).1.lastPoint =
      some (toPixel cfg (nthLm lm 8)) := by
  refine ⟨rfl, rfl, ?_, ?_⟩ <;>
  · simp only [processTick, clearSurface, h]
    split_ifs <;> simp_all

/-- Witness for C7: clear from a mid-stroke state, then a concrete DRAW
frame at the origin. -/
theorem clear_then_draw_renders_no_segment_witness :
    (clearSurface sMidStroke []).1.lastPoint = none ∧
    (clearSurface sMidStroke []).2 = [] ∧
    (processTick cfg0 (clearSurface sMidStroke []).1
      (TickInput.frame (mkDrawFrame 0 0)) 0).2.segment = none ∧
    (processTick cfg0 (clearSurface sMidStroke []).1
      (TickInput.frame (mkDrawFrame 0 0)) 0).1.lastPoint =
      some (toPixel cfg0 (nthLm (mkDrawFrame 0 0) 8)) :=
  clear_then_draw_renders_no_segment cfg0 sMidStroke [] (mkDrawFrame 0 0) 0
    (detectGesture_mkDrawFrame 0 0)

/-- The session-state invariant of spec section 3: a stored point implies the
last processed gesture was DRAW, and the drawing flag implies the same. -/
def EngineInv (s : EngineState) : Prop :=
  (s.lastPoint.isSome = true → s.lastGesture = GestureType.DRAW) ∧
  (s.isDrawing = true → s.lastGesture = GestureType.DRAW)

/-- States reachable from the initial refs by any interleaving of processed
ticks (with arbitrary per-tick external configuration and clock) and
external clears. -/
inductive ReachableState : EngineState → Prop where
  | init : ReachableState initState
  | tick (cfg : Config) (inp : TickInput) (now : ℤ) {s : EngineState} :
      ReachableState s → ReachableState (processTick cfg s inp now).1
  | clear (surf : List Segment) {s : EngineState} :
      ReachableState s → ReachableState (clearSurface s surf).1

/-- One tick preserves the session-state invariant. -/
lemma processTick_preserves_inv (cfg : Config) (s : EngineState)
    (inp : TickInput) (now : ℤ) (hs : EngineInv s) :
    EngineInv (processTick cfg s inp now).1 := by
  obtain ⟨hp, hd⟩ := hs
  cases inp with
  | err => exact ⟨hp, hd⟩
  | noHand =>
      simp only [processTick]
      split_ifs with h
      · exact ⟨by simp, by simp⟩
      · exact ⟨hp, hd⟩
  | frame lm =>
      simp only [processTick, EngineInv]
      split_ifs <;> simp_all

/-- C9: in every reachable state, `lastPoint` is non-null only if the last
processed gesture was DRAW (the stored point being the one recorded then),
and `isDrawing` never holds while `lastGesture` is not DRAW. -/
theorem engine_reachable_inv (s : EngineState) (h : ReachableState s) :
    EngineInv s := by
  induction h with
  | init => exact ⟨by simp [initState], by simp [initState]⟩
  | tick cfg inp now _ ih => exact processTick_preserves_inv _ _ _ _ ih
  | clear surf _ ih => exact ⟨by simp [clearSurface], fun hb => ih.2 hb⟩

/-- Witness for C9 at the initial state. -/
theorem engine_reachable_inv_witness : EngineInv initState :=
  engine_reachable_inv initState ReachableState.init

/-- One tick processed as IDLE moves `lastGesture` to IDLE, and from a state
already at IDLE it is a complete no-op. -/
lemma idle_tick_facts (cfg : Config) (s : EngineState) (inp : TickInput)
    (now : ℤ) (hg : inputGesture inp = some GestureType.IDLE) :
    (processTick cfg s inp now).1.lastGesture = GestureType.IDLE ∧
    (s.lastGesture = GestureType.IDLE →
      processTick cfg s inp now = (s, emptyOutput)) := by
  cases inp with
  | err => simp [inputGesture] at hg
  | noHand =>
      by_cases h : s.lastGesture = GestureType.IDLE
      · simp [processTick, h]
      · simp [processTick, h]
  | frame lm =>
      simp only [inputGesture, Option.some.injEq] at hg
      constructor
      · simp only [processTick, hg]
        split_ifs <;> simp_all
      · intro h
        simp [processTick, hg, h, emptyOutput]

/-- A run of IDLE-classified ticks starting from a state already at IDLE
produces no gesture events at all. -/
lemma idle_run_no_events (cfg : Config) (ticks : List (TickInput × ℤ)) :
    ∀ s : EngineState, s.lastGesture = GestureType.IDLE →
    (∀ x ∈ ticks, inputGesture x.1 = some GestureType.IDLE) →
    ((runTicks cfg s ticks).2.filter (fun o => o.gestureEvent.isSome)).length = 0 := by
  induction ticks with
  | nil => intro s _ _; simp [runTicks]
  | cons hd tl ih =>
      intro s hs hall
      obtain ⟨inp, now⟩ := hd
      have hg : inputGesture inp = some GestureType.IDLE := hall (inp, now) (by simp)
      have heq := (idle_tick_facts cfg s inp now hg).2 hs
      simp only [runTicks, heq]
      have htl := ih s hs (fun x hx => hall x (by simp [hx]))
      simpa [emptyOutput] using htl

/-- C5: `onGestureChange` fires on a tick iff that tick's gesture (a no-hand
tick counting as IDLE) differs from the previous tick's, and `lastGesture`
then records the new gesture; a hand-present frame classified IDLE is
processed identically to a no-hand tick; and any run of consecutive
IDLE/no-hand ticks produces at most one gesture event. -/
theorem gesture_event_edge (cfg : Config) (s : EngineState) (now : ℤ) :
    (∀ (inp : TickInput) (g : GestureType), inputGesture inp = some g →
      (processTick cfg s inp now).2.gestureEvent =
        (if g ≠ s.lastGesture then some g else none) ∧
      (processTick cfg s inp now).1.lastGesture = g) ∧
    (∀ lm, detectGesture lm = GestureType.IDLE →
      processTick cfg s (TickInput.frame lm) now =
        processTick cfg s TickInput.noHand now) ∧
    (∀ ticks : List (TickInput × ℤ),
      (∀ x ∈ ticks, inputGesture x.1 = some GestureType.IDLE) →
      ((runTicks cfg s ticks).2.filter (fun o => o.gestureEvent.isSome)).length ≤ 1) := by
  refine ⟨?_, ?_, ?_⟩
  · intro inp g hg
    cases inp with
    | err => simp [inputGesture] at hg
    | noHand =>
        simp only [inputGesture, Option.some.injEq] at hg
        subst hg
        by_cases h : s.lastGesture = GestureType.IDLE
        · simp [processTick, h, emptyOutput]
        · simp [processTick, h, Ne.symm h, emptyOutput]
    | frame lm =>
        simp only [inputGesture, Option.some.injEq] at hg
        subst hg
        simp only [processTick]
        split_ifs <;> simp_all [emptyOutput]
  · intro lm hlm
    by_cases h : s.lastGesture = GestureType.IDLE
    · simp [processTick, hlm, h, emptyOutput]
    · simp [processTick, hlm, h, Ne.symm h, emptyOutput]
  · intro ticks hall
    cases ticks with
    | nil => simp [runTicks]
    | cons hd tl =>
        obtain ⟨inp, now'⟩ := hd
        have hg : inputGesture inp = some GestureType.IDLE := hall (inp, now') (by simp)
        have h0 := (idle_tick_facts cfg s inp now' hg).1
        have hrest := idle_run_no_events cfg tl (processTick cfg s inp now').1 h0
          (fun x hx => hall x (by simp [hx]))
        simp only [runTicks]
        cases hev : (processTick cfg s inp now').2.gestureEvent <;>
          simp [List.filter_cons, hev, hrest]

/-- Witness for C5: a no-hand tick from a mid-stroke (DRAW) state fires the
IDLE transition event. -/
theorem gesture_event_edge_witness :
    (processTick cfg0 sMidStroke TickInput.noHand 0).2.gestureEvent =
      (if GestureType.IDLE ≠ sMidStroke.lastGesture then some GestureType.IDLE
       else none) :=
  (((gesture_event_edge cfg0 sMidStroke 0).1 TickInput.noHand GestureType.IDLE) rfl).1

/-- C4 (counterexample): `gestureCooldownRef` starts at 0, not at a
-infinity equivalent, so the first-ever CHANGE_COLOR tick does NOT fire when
the clock reads 1000 ms (1000 - 0 is not greater than 1500), contradicting
"the first-ever CHANGE_COLOR tick fires regardless of nowMillis". -/
theorem first_color_tick_requires_elapsed_clock :
    initState.gestureCooldown = 0 ∧
    detectGesture mkCcFrame = GestureType.CHANGE_COLOR ∧
    (processTick cfg0 initState (TickInput.frame mkCcFrame) 1000).2.colorFired =
      false := by
  refine ⟨rfl, detectGesture_mkCcFrame, ?_⟩
  simp only [processTick, detectGesture_mkCcFrame]
  norm_num [initState]
  split_ifs <;> simp_all

/-- C4 (amended): on a CHANGE_COLOR tick, `onColorChange` fires iff
`now - gestureCooldown > 1500`, in which case the stored timestamp becomes
`now` (the timestamp starts at 0, so the first-ever fire needs `now > 1500`);
holding CHANGE_COLOR at times t, t+500, t+1000, t+1600 with t > 1500 fires
exactly at t and t+1600. -/
theorem color_cooldown_law (cfg : Config) (lm : List HandLandmark)
    (h : detectGesture lm = GestureType.CHANGE_COLOR) :
    (∀ (s : EngineState) (now : ℤ),
      ((processTick cfg s (TickInput.frame lm) now).2.colorFired = true ↔
        1500 < now - s.gestureCooldown) ∧
      (processTick cfg s (TickInput.frame lm) now).1.gestureCooldown =
        (if 1500 < now - s.gestureCooldown then now else s.gestureCooldown)) ∧
    (∀ t : ℤ, 1500 < t →
      ((runTicks cfg initState
          [(TickInput.frame lm, t), (TickInput.frame lm, t + 500),
           (TickInput.frame lm, t + 1000), (TickInput.frame lm, t + 1600)]).2.map
          (fun o => o.colorFired)) = [true, false, false, true]) := by
  have key : ∀ (s : EngineState) (now : ℤ),
      processTick cfg s (TickInput.frame lm) now =
        ({ lastGesture := GestureType.CHANGE_COLOR,
           lastPoint :=
             if GestureType.CHANGE_COLOR ≠ s.lastGesture then none else s.lastPoint,
           isDrawing :=
             if GestureType.CHANGE_COLOR ≠ s.lastGesture then false else s.isDrawing,
           gestureCooldown :=
             if 1500 < now - s.gestureCooldown then now else s.gestureCooldown },
         { gestureEvent :=
             if GestureType.CHANGE_COLOR ≠ s.lastGesture then
               some GestureType.CHANGE_COLOR
             else none,
           colorFired := if 1500 < now - s.gestureCooldown then true else false,
           segment := none }) := by
    intro s now
    simp only [processTick, h]
    split_ifs <;> simp_all
  refine ⟨fun s now => ?_, fun t ht => ?_⟩
  · rw [key s now]
    refine ⟨?_, by simp⟩
    split_ifs <;> simp_all
  · have n500 : ¬ (1500 : ℤ) < t + 500 - t := by omega
    have n1000 : ¬ (1500 : ℤ) < t + 1000 - t := by omega
    have y1600 : (1500 : ℤ) < t + 1600 - t := by omega
    have ht0 : (1500 : ℤ) < t - initState.gestureCooldown := by
      simp only [initState]
      omega
    simp only [runTicks, key, List.map]
    norm_num [initState]
    split_ifs
    all_goals omega

/-- Witness for C4 at t = 2000 with the concrete CHANGE_COLOR frame. -/
theorem color_cooldown_law_witness :
    ((runTicks cfg0 initState
        [(TickInput.frame mkCcFrame, 2000), (TickInput.frame mkCcFrame, 2000 + 500),
         (TickInput.frame mkCcFrame, 2000 + 1000),
         (TickInput.frame mkCcFrame, 2000 + 1600)]).2.map
        (fun o => o.colorFired)) = [true, false, false, true] :=
  (color_cooldown_law cfg0 mkCcFrame detectGesture_mkCcFrame).2 2000 (by decide)

/-- Index-fingertip landmark of the DRAW test frame. -/
lemma nthLm_mkDrawFrame_tip (tx ty : ℚ) :
    nthLm (mkDrawFrame tx ty) 8 = ⟨tx, ty, 0, none⟩ := rfl

/-- Evaluation of two consecutive DRAW ticks with fingertips at normalized
(0.5, 0.5) then (0.6, 0.5) on a 1000×1000 surface: the first tick renders
nothing, the second renders a segment from (500, 500) to (400, 500). -/
lemma two_draw_ticks_eval (cfgS : Config) (hw : cfgS.width = 1000)
    (hh : cfgS.height = 1000) (now : ℤ) :
    ((runTicks cfgS initState
        [(TickInput.frame (mkDrawFrame (1/2) (1/2)), now),
         (TickInput.frame (mkDrawFrame (3/5) (1/2)), now)]).2.map
        (fun o => o.segment)) =
      [none, some ⟨⟨500, 500⟩, ⟨400, 500⟩,
        ⟨cfgS.activeColor, 8, CompositeMode.sourceOver⟩⟩] := by
  have hg1 := detectGesture_mkDrawFrame (1/2 : ℚ) (1/2 : ℚ)
  have hg2 := detectGesture_mkDrawFrame (3/5 : ℚ) (1/2 : ℚ)
  have e1 := nthLm_mkDrawFrame_tip (1/2 : ℚ) (1/2 : ℚ)
  have e2 := nthLm_mkDrawFrame_tip (3/5 : ℚ) (1/2 : ℚ)
  simp only [runTicks, processTick, hg1, hg2, e1, e2, toPixel, hw, hh]
  norm_num [initState, emptyOutput]
  split_ifs <;> exact ⟨rfl, rfl⟩

/-- C2 (amended): a DRAW tick converts the index fingertip by
`x = (1 - xn) * width`, `y = yn * height` and records exactly that raw point
— no smoothing is applied — and when the previous tick was already DRAW with
a recorded point, the rendered segment ends at the raw point; in the claim's
concrete scenario the second tick's endpoint is (400, 500), not (440, 500). -/
theorem draw_tick_records_raw_point (cfg : Config) (s : EngineState)
    (lm : List HandLandmark) (now : ℤ) (h : detectGesture lm = GestureType.DRAW) :
    (processTick cfg s (TickInput.frame lm) now).1.lastPoint =
      some (toPixel cfg (nthLm lm 8)) ∧
    (s.lastGesture = GestureType.DRAW →
      (processTick cfg s (TickInput.frame lm) now).2.segment =
        s.lastPoint.map fun p =>
          ⟨p, toPixel cfg (nthLm lm 8),
           ⟨cfg.activeColor, 8, CompositeMode.sourceOver⟩⟩) ∧
    (∀ cfgS : Config, cfgS.width = 1000 → cfgS.height = 1000 →
      ((runTicks cfgS initState
          [(TickInput.frame (mkDrawFrame (1/2) (1/2)), now),
           (TickInput.frame (mkDrawFrame (3/5) (1/2)), now)]).2.map
          (fun o => o.segment)) =
        [none, some ⟨⟨500, 500⟩, ⟨400, 500⟩,
          ⟨cfgS.activeColor, 8, CompositeMode.sourceOver⟩⟩]) := by
  refine ⟨?_, ?_, fun cfgS hw hh => two_draw_ticks_eval cfgS hw hh now⟩
  · simp only [processTick, h]
    split_ifs <;> simp_all
  · intro hlast
    simp only [processTick, h]
    split_ifs <;> simp_all

/-- Witness for C2 at the concrete two-tick scenario on `cfg0`. -/
theorem draw_tick_records_raw_point_witness :
    ((runTicks cfg0 initState
        [(TickInput.frame (mkDrawFrame (1/2) (1/2)), 0),
         (TickInput.frame (mkDrawFrame (3/5) (1/2)), 0)]).2.map
        (fun o => o.segment)) =
      [none, some ⟨⟨500, 500⟩, ⟨400, 500⟩,
        ⟨cfg0.activeColor, 8, CompositeMode.sourceOver⟩⟩] :=
  (draw_tick_records_raw_point cfg0 initState (mkDrawFrame 0 0) 0
    (detectGesture_mkDrawFrame 0 0)).2.2 cfg0 rfl rfl

/-- C2 (counterexample): in the claim's own scenario the rendered segment's
endpoint is the raw point (400, 500); the claimed smoothed endpoint would be
0.6 * 400 + 0.4 * 500 = 440 in x, and 400 ≠ 440. -/
theorem smoothed_endpoint_refuted :
    ((runTicks cfg0 initState
        [(TickInput.frame (mkDrawFrame (1/2) (1/2)), 0),
         (TickInput.frame (mkDrawFrame (3/5) (1/2)), 0)]).2.map
        (fun o => o.segment)) =
      [none, some ⟨⟨500, 500⟩, ⟨400, 500⟩,
        ⟨"#4ECDC4", 8, CompositeMode.sourceOver⟩⟩] ∧
    (400 : ℚ) ≠ (6/10 : ℚ) * 400 + (4/10 : ℚ) * 500 := by
  refine ⟨two_draw_ticks_eval cfg0 rfl rfl 0, by norm_num⟩

/-- Test configuration with the eraser tool selected (as HomePage passes it
down while ARCanvas ignores it). -/
def cfgE : Config :=
  { width := 1000, height := 1000, activeColor := "#4ECDC4",
    activeTool := Tool.eraser }

/-- The segment rendered by a DRAW tick from `sMidStroke` under `cfgE`. -/
def segE : Segment :=
  ⟨⟨500, 500⟩, toPixel cfgE (nthLm (mkDrawFrame (3/5) (1/2)) 8),
   ⟨"#4ECDC4", 8, CompositeMode.sourceOver⟩⟩

/-- With the eraser tool selected, a mid-stroke DRAW tick still emits the
pen-style segment `segE`. -/
lemma segE_emitted :
    (processTick cfgE sMidStroke
      (TickInput.frame (mkDrawFrame (3/5) (1/2))) 0).2.segment = some segE := by
  have hg := detectGesture_mkDrawFrame (3/5 : ℚ) (1/2 : ℚ)
  simp only [processTick, hg, sMidStroke, segE]
  split_ifs <;> simp_all [cfgE]

/-- C3: every rendered segment carries normal paint compositing
(`source-over`, the canvas default that the source never changes), line
width 8 and the active color, whatever `activeTool` says — the Engine does
not read the tool at all, so the eraser configuration produces exactly the
same tick results as the pen configuration. -/
theorem stroke_style_ignores_tool (cfg : Config) (s : EngineState)
    (inp : TickInput) (now : ℤ) (seg : Segment)
    (h : (processTick cfg s inp now).2.segment = some seg) :
    seg.style.composite = CompositeMode.sourceOver ∧
    seg.style.lineWidth = 8 ∧
    seg.style.color = cfg.activeColor ∧
    processTick { cfg with activeTool := Tool.eraser } s inp now =
      processTick { cfg with activeTool := Tool.pen } s inp now := by
  have hstyle : seg.style = ⟨cfg.activeColor, 8, CompositeMode.sourceOver⟩ := by
    cases inp with
    | err => simp [processTick, emptyOutput] at h
    | noHand =>
        simp only [processTick] at h
        split_ifs at h <;> simp [emptyOutput] at h
    | frame lm =>
        simp only [processTick] at h
        split_ifs at h <;>
          first
          | (obtain ⟨p, hp, rfl⟩ := Option.map_eq_some'.mp h
             rfl)
          | simp at h
  exact ⟨by rw [hstyle], by rw [hstyle], by rw [hstyle], by cases inp <;> rfl⟩

/-- Witness for C3: the eraser-tool mid-stroke tick emits a `source-over`
segment of width 8 in the active color, and the eraser and pen
configurations agree on the whole tick. -/
theorem stroke_style_ignores_tool_witness :
    segE.style.composite = CompositeMode.sourceOver ∧
    segE.style.lineWidth = 8 ∧
    segE.style.color = cfgE.activeColor ∧
    processTick { cfgE with activeTool := Tool.eraser } sMidStroke
        (TickInput.frame (mkDrawFrame (3/5) (1/2))) 0 =
      processTick { cfgE with activeTool := Tool.pen } sMidStroke
        (TickInput.frame (mkDrawFrame (3/5) (1/2))) 0 :=
  stroke_style_ignores_tool cfgE sMidStroke
    (TickInput.frame (mkDrawFrame (3/5) (1/2))) 0 segE segE_emitted
